import Mathlib

/-!
Verification of the simple_racing_arcade game core (`src/main.py`):
the polygon track model, the on-track containment test, and the
per-tick vehicle control model of `Racer.on_update`.

Coordinates, velocities and angles are embedded as rationals.  The
external physics engine (`pymunk`, driven through
`arcade.PymunkPhysicsEngine`) is kept abstract: a tick records the
forces passed to `apply_force` (in the body's local frame, as the
arcade API takes them), direct velocity writes via `set_velocity`,
and angle writes, and the physics step is an opaque function applied
to the body after the control phase, matching `on_update`'s final
`self.physics_engine.step()`.

`Vec2d.rotated` of the physics library is a rotation by a fixed angle;
since cosine and sine of the drift angle are irrational, the embedding
is parametrised by the pair `(c, s)` standing for the cosine and sine
of the rotation angle `CAR_TURN_SPEED - CAR_DRIFT * CAR_TURN_SPEED`,
with `c ^ 2 + s ^ 2 = 1` assumed where a claim needs that `rotated`
is an isometry.
-/

/-- Constant from `main.py`: screen width in pixels. -/
def SCREEN_WIDTH : ℚ := 1280

/-- Constant from `main.py`: screen height in pixels (the canvas height `H`). -/
def SCREEN_HEIGHT : ℚ := 720

/-- Constant from `main.py`: the forward acceleration force. -/
def ACCELERATE_FORCE : ℚ := 1250

/-- Constant from `main.py`: the braking force, also reused as the
hard-stop velocity threshold. -/
def BREAK_FORCE : ℚ := 1250

/-- Constant from `main.py`: orientation change per tick while turning. -/
def CAR_TURN_SPEED : ℚ := 75 / 1000

/-- Constant from `main.py`: drift factor in [0, 1). -/
def CAR_DRIFT : ℚ := 35 / 100

/-- The angle by which the velocity vector is rotated during a turn,
`CAR_TURN_SPEED - CAR_DRIFT * CAR_TURN_SPEED` from `Racer.on_update`. -/
def driftAngle : ℚ := CAR_TURN_SPEED - CAR_DRIFT * CAR_TURN_SPEED

/-- Modelled from the spec: the external collaborator's point-in-polygon
primitive (`arcade.is_point_in_polygon`), "a standard point-in-polygon
test (ray casting)".  One edge of the ray-casting loop: the horizontal
ray from `(x, y)` to the right crosses the edge `p1`-`p2` iff `y` lies
in the half-open vertical span of the edge, `x` is not to the right of
both endpoints, and `x` is left of (or on) the intersection abscissa. -/
def edgeCrossing (x y : ℚ) (p1 p2 : ℚ × ℚ) : Bool :=
  if y > min p1.2 p2.2 ∧ y ≤ max p1.2 p2.2 ∧ x ≤ max p1.1 p2.1 then
    if p1.1 = p2.1 then true
    else x ≤ (y - p1.2) * (p2.1 - p1.1) / (p2.2 - p1.2) + p1.1
  else false

/-- Modelled from the spec: the external point-in-polygon primitive
(`arcade.is_point_in_polygon`).  Folds `edgeCrossing` over the closed
edge list of the polygon (consecutive points, wrapping around), toggling
the inside flag at each crossing; the empty polygon contains nothing. -/
def pointInPolygon (x y : ℚ) (poly : List (ℚ × ℚ)) : Bool :=
  (List.zip poly (poly.rotate 1)).foldl
    (fun inside e => if edgeCrossing x y e.1 e.2 then !inside else inside) false

/-- The track record of `Track.__init__`: the raw outer and inner
boundary point lists and the start point, plus the two point lists as
they are handed to the rasterizer (after `Track._flip_y`). -/
structure Track where
  outer_box : List (ℚ × ℚ)
  inner_box : List (ℚ × ℚ)
  start : ℚ × ℚ
  raster_outer : List (ℚ × ℚ)
  raster_inner : List (ℚ × ℚ)
deriving DecidableEq

/-- `Track._flip_y`: `[(x, SCREEN_HEIGHT - y) for x, y in points]`. -/
def flip_y (points : List (ℚ × ℚ)) : List (ℚ × ℚ) :=
  points.map (fun p => (p.1, SCREEN_HEIGHT - p.2))

/-- `Track.__init__`: stores the raw bounds and start, and rasterizes the
`flip_y`-transformed polygons (the rasterization itself is external; the
embedding records which point lists reach it). -/
def mkTrack (outer inner : List (ℚ × ℚ)) (s : ℚ × ℚ) : Track :=
  { outer_box := outer
    inner_box := inner
    start := s
    raster_outer := flip_y outer
    raster_inner := flip_y inner }

/-- `Track.is_ontrack`: inside the raw outer polygon and not inside the
raw inner polygon. -/
def is_ontrack (t : Track) (x y : ℚ) : Bool :=
  pointInPolygon x y t.outer_box && !(pointInPolygon x y t.inner_box)

/-- The outer bound of `TRACKS[0]`. -/
def outerBound0 : List (ℚ × ℚ) :=
  [(50, 250), (290, 50), (975, 50), (1100, 175), (1100, 225), (885, 285),
   (885, 360), (1230, 400), (1230, 575), (1115, 670), (280, 670), (50, 500)]

/-- The inner bound of `TRACKS[0]`. -/
def innerBound0 : List (ℚ × ℚ) :=
  [(200, 285), (355, 160), (880, 160), (640, 270), (640, 415), (800, 480),
   (1070, 490), (1040, 575), (350, 575), (200, 465)]

/-- The single configured track, `TRACKS[0]`, with start `(110, 360)`. -/
def track0 : Track := mkTrack outerBound0 innerBound0 (110, 360)

/-- The physics body state visible to `Racer.on_update` through the
arcade physics API: position, velocity and angle (`body.velocity`,
`body.angle`), plus the list of forces passed to
`physics_engine.apply_force` during the current tick, in the body's
local frame as the API takes them (pymunk accumulates applied forces
until the step consumes them). -/
structure Body where
  pos : ℚ × ℚ
  vel : ℚ × ℚ
  angle : ℚ
  forces : List (ℚ × ℚ)
deriving DecidableEq

/-- The four control booleans of `Racer` (`accelerate`, `slowdown`,
`turn_left`, `turn_right`). -/
structure Inputs where
  accelerate : Bool
  slowdown : Bool
  turn_left : Bool
  turn_right : Bool
deriving DecidableEq

/-- The simulation state of `Racer` relevant to the update tick:
the track, the car's physics body, and the sticky `out_of_track` flag. -/
structure GameState where
  track : Track
  body : Body
  out_of_track : Bool
deriving DecidableEq

/-- `Vec2d.rotated`: rotation of a vector by the angle whose cosine is
`c` and sine is `s`. -/
def rot (c s : ℚ) (v : ℚ × ℚ) : ℚ × ℚ :=
  (c * v.1 - s * v.2, s * v.1 + c * v.2)

/-- The accelerate/brake branch of `Racer.on_update` (the body is on
track): if `accelerate`, apply the local force `(0, ACCELERATE_FORCE)`;
else if `slowdown`, snap velocity to `(0, 0)` when the y-component of
the body's velocity is below `BREAK_FORCE`, and apply the local force
`(0, -BREAK_FORCE)` otherwise. -/
def accelBrakePhase (inp : Inputs) (b : Body) : Body :=
  if inp.accelerate then
    { b with forces := b.forces ++ [(0, ACCELERATE_FORCE)] }
  else if inp.slowdown then
    if b.vel.2 < BREAK_FORCE then
      { b with vel := (0, 0) }
    else
      { b with forces := b.forces ++ [(0, -BREAK_FORCE)] }
  else b

/-- The turning branch of `Racer.on_update`: if `turn_left`, increase
the body angle by `CAR_TURN_SPEED` and rotate the velocity by
`driftAngle` (cosine `c`, sine `s`); else if `turn_right`, the same
with negated angles (cosine `c`, sine `-s`). -/
def turnPhase (c s : ℚ) (inp : Inputs) (b : Body) : Body :=
  if inp.turn_left then
    { b with angle := b.angle + CAR_TURN_SPEED, vel := rot c s b.vel }
  else if inp.turn_right then
    { b with angle := b.angle - CAR_TURN_SPEED, vel := rot c (-s) b.vel }
  else b

/-- The control part of `Racer.on_update` (everything before the final
`physics_engine.step()`): if the car's center is not on track or the
`out_of_track` flag is already set, set the flag and touch nothing else;
otherwise run the accelerate/brake branch and then the turning branch. -/
def controlPhase (c s : ℚ) (inp : Inputs) (st : GameState) : GameState :=
  if !(is_ontrack st.track st.body.pos.1 st.body.pos.2) || st.out_of_track then
    { st with out_of_track := true }
  else
    { st with body := turnPhase c s inp (accelBrakePhase inp st.body) }

/-- `Racer.on_update`: the control phase followed by the external
physics step (`physics_engine.step()`), which acts on the physics body
only — it is an arbitrary function `step` on `Body`. -/
def onUpdate (c s : ℚ) (step : Body → Body) (inp : Inputs) (st : GameState) :
    GameState :=
  let st' := controlPhase c s inp st
  { st' with body := step st'.body }

/-- The car's physics body as created in `Racer.setup`: at the start
point of `TRACKS[0]`, with zero velocity, default orientation and no
pending forces. -/
def initialBody : Body :=
  { pos := (110, 360), vel := (0, 0), angle := 0, forces := [] }

/-- The state built by `Racer.setup`: the track of `TRACKS[0]`, a fresh
car body, and `out_of_track = False`. -/
def setupState : GameState :=
  { track := track0, body := initialBody, out_of_track := false }

/-- The reset operation (key `R` calls `Racer.setup`): rebuilds the
whole state from scratch, whatever the current state is. -/
def reset (_st : GameState) : GameState := setupState

/-- Modelled from the spec: the vehicle's forward-velocity magnitude,
`|v · forward|` where `forward` is the body's local +y axis rotated to
the world frame, `(-s, c)` for body-angle cosine `c` and sine `s`.
Used only to state the spec's brake threshold, which the source does
not compute. -/
def fwdVelocityMag (c s : ℚ) (b : Body) : ℚ :=
  |(-s) * b.vel.1 + c * b.vel.2|


/-- Inputs with only the brake flag set. -/
def brakeOnly : Inputs :=
  { accelerate := false, slowdown := true, turn_left := false, turn_right := false }

/-- Inputs with only the turn-left flag set. -/
def leftOnly : Inputs :=
  { accelerate := false, slowdown := false, turn_left := true, turn_right := false }

/-- A body at the start point moving straight down at speed 2000. -/
def fastDownBody : Body :=
  { pos := (110, 360), vel := (0, -2000), angle := 0, forces := [] }

/-- An on-track state whose car moves straight down at speed 2000. -/
def fastDownState : GameState :=
  { track := track0, body := fastDownBody, out_of_track := false }

/-- A body at the start point moving with velocity (30, 40). -/
def movingBody : Body :=
  { pos := (110, 360), vel := (30, 40), angle := 0, forces := [] }

/-- A body at the origin, which is outside the outer bound. -/
def originBody : Body :=
  { pos := (0, 0), vel := (0, 0), angle := 0, forces := [] }

/-- A state whose car is off the track (at the origin). -/
def offTrackState : GameState :=
  { track := track0, body := originBody, out_of_track := false }

/-- A state whose out_of_track flag is already set. -/
def ootState : GameState :=
  { track := track0, body := initialBody, out_of_track := true }

/-- Rotation by an angle with cosine `c` and sine `s` preserves the
squared Euclidean norm when `c ^ 2 + s ^ 2 = 1`. -/
lemma rot_sqnorm (c s : ℚ) (v : ℚ × ℚ) (h : c ^ 2 + s ^ 2 = 1) :
    (rot c s v).1 ^ 2 + (rot c s v).2 ^ 2 = v.1 ^ 2 + v.2 ^ 2 := by
  simp only [rot]
  linear_combination (v.1 ^ 2 + v.2 ^ 2) * h

/-- Claim C1, counterexample: at the default orientation (cosine 1,
sine 0) with velocity (0, -2000), the forward-velocity magnitude is
2000, not below the BREAK_FORCE threshold of 1250, so the claim
requires a braking force and no snap; the code instead snaps the
velocity to (0, 0) and applies no force, because it compares the
signed y-component -2000 (not the magnitude) against the threshold. -/
theorem brake_threshold_cex :
    ¬ fwdVelocityMag 1 0 fastDownBody < BREAK_FORCE ∧
    fwdVelocityMag 1 0 fastDownBody = 2000 ∧
    (controlPhase 1 0 brakeOnly fastDownState).body.vel = (0, 0) ∧
    (controlPhase 1 0 brakeOnly fastDownState).body.forces = [] := by
  refine ⟨?_, ?_, ?_, ?_⟩
  · norm_num [fwdVelocityMag, fastDownBody, BREAK_FORCE]
  · norm_num [fwdVelocityMag, fastDownBody]
  · decide
  · decide

/-- Claim C1, amended: for every on-track tick with brake set and
accelerate not set, if the SIGNED y-component of the world-frame
velocity is below BREAK_FORCE the velocity is set to exactly (0, 0),
and otherwise the local-frame force (0, -BREAK_FORCE) — magnitude
BREAK_FORCE along the reverse of the local forward axis — is applied. -/
theorem brake_signed_threshold (c s : ℚ) (inp : Inputs) (st : GameState)
    (hon : is_ontrack st.track st.body.pos.1 st.body.pos.2 = true)
    (hoot : st.out_of_track = false)
    (hacc : inp.accelerate = false) (hbr : inp.slowdown = true) :
    (controlPhase c s inp st).body = turnPhase c s inp (accelBrakePhase inp st.body) ∧
    (st.body.vel.2 < BREAK_FORCE →
      accelBrakePhase inp st.body = { st.body with vel := (0, 0) }) ∧
    (¬ st.body.vel.2 < BREAK_FORCE →
      accelBrakePhase inp st.body =
        { st.body with forces := st.body.forces ++ [(0, -BREAK_FORCE)] }) := by
  refine ⟨by simp [controlPhase, hon, hoot], ?_, ?_⟩
  · intro h
    simp [accelBrakePhase, hacc, hbr, h]
  · intro h
    simp [accelBrakePhase, hacc, hbr, h]

/-- Claim C1, witness for the amended theorem at the setup state with
brake pressed. -/
theorem brake_signed_threshold_witness :
    (controlPhase 1 0 brakeOnly setupState).body =
      turnPhase 1 0 brakeOnly (accelBrakePhase brakeOnly setupState.body) ∧
    (setupState.body.vel.2 < BREAK_FORCE →
      accelBrakePhase brakeOnly setupState.body = { setupState.body with vel := (0, 0) }) ∧
    (¬ setupState.body.vel.2 < BREAK_FORCE →
      accelBrakePhase brakeOnly setupState.body =
        { setupState.body with forces := setupState.body.forces ++ [(0, -BREAK_FORCE)] }) :=
  brake_signed_threshold 1 0 brakeOnly setupState (by decide) rfl rfl rfl

/-- Claim C2: for every point (x, y), `is_ontrack` returns true iff the
point is inside the outer polygon and not inside the inner polygon, and
the test reads the raw stored coordinate lists (the `outer_box` and
`inner_box` fields hold the untransformed input lists; no raster is
involved in the test). -/
theorem ontrack_analytic (outer inner : List (ℚ × ℚ)) (s : ℚ × ℚ) (x y : ℚ) :
    (mkTrack outer inner s).outer_box = outer ∧
    (mkTrack outer inner s).inner_box = inner ∧
    (is_ontrack (mkTrack outer inner s) x y =
      (pointInPolygon x y outer && !(pointInPolygon x y inner))) :=
  ⟨rfl, rfl, rfl⟩

/-- Claim C3: once `out_of_track` is true, it stays true after every
update tick, for every input combination and every physics step; only
the reset operation sets it back to false. -/
theorem out_of_track_sticky (c s : ℚ) (step : Body → Body) (inp : Inputs)
    (st : GameState) (h : st.out_of_track = true) :
    (onUpdate c s step inp st).out_of_track = true ∧
    (reset st).out_of_track = false := by
  refine ⟨?_, rfl⟩
  simp [onUpdate, controlPhase, h]

/-- Claim C3, witness: a tick on a state with the flag already set. -/
theorem out_of_track_sticky_witness :
    (onUpdate 1 0 id brakeOnly ootState).out_of_track = true ∧
    (reset ootState).out_of_track = false :=
  out_of_track_sticky 1 0 id brakeOnly ootState rfl

/-- Claim C4: when the position fails the containment test or the flag
is already set, the tick sets `out_of_track` to true and the control
phase performs no force application, no velocity write, and no angle
change — the physics step acts on the body exactly as it was. -/
theorem offtrack_no_control (c s : ℚ) (step : Body → Body) (inp : Inputs)
    (st : GameState)
    (h : is_ontrack st.track st.body.pos.1 st.body.pos.2 = false ∨
      st.out_of_track = true) :
    (onUpdate c s step inp st).out_of_track = true ∧
    (onUpdate c s step inp st).body = step st.body := by
  have hg : (!(is_ontrack st.track st.body.pos.1 st.body.pos.2) ||
      st.out_of_track) = true := by
    rcases h with h | h <;> simp [h]
  constructor <;> simp [onUpdate, controlPhase, hg]

/-- Claim C4, witness: a tick on a state whose car is at the origin,
outside the track. -/
theorem offtrack_no_control_witness :
    (onUpdate 1 0 id brakeOnly offTrackState).out_of_track = true ∧
    (onUpdate 1 0 id brakeOnly offTrackState).body = id offTrackState.body :=
  offtrack_no_control 1 0 id brakeOnly offTrackState (Or.inl (by decide))

/-- Claim C5: on an on-track tick with turn-left set, the angle grows by
exactly CAR_TURN_SPEED and the current velocity (after the
accelerate/brake branch of the same tick) is rotated by the drift angle
(cosine `c`, sine `s`); with turn-right set and turn-left not set, the
same with negated angles; this holds for every accelerate/brake input
combination, and the drift angle equals CAR_TURN_SPEED * (1 - CAR_DRIFT). -/
theorem turn_effects (c s : ℚ) (inp : Inputs) (st : GameState)
    (hon : is_ontrack st.track st.body.pos.1 st.body.pos.2 = true)
    (hoot : st.out_of_track = false) :
    (inp.turn_left = true →
      (controlPhase c s inp st).body =
        { accelBrakePhase inp st.body with
            angle := (accelBrakePhase inp st.body).angle + CAR_TURN_SPEED,
            vel := rot c s (accelBrakePhase inp st.body).vel }) ∧
    (inp.turn_left = false → inp.turn_right = true →
      (controlPhase c s inp st).body =
        { accelBrakePhase inp st.body with
            angle := (accelBrakePhase inp st.body).angle - CAR_TURN_SPEED,
            vel := rot c (-s) (accelBrakePhase inp st.body).vel }) ∧
    driftAngle = CAR_TURN_SPEED * (1 - CAR_DRIFT) := by
  refine ⟨?_, ?_, by norm_num [driftAngle, CAR_TURN_SPEED, CAR_DRIFT]⟩
  · intro hl
    simp [controlPhase, hon, hoot, turnPhase, hl]
  · intro hl hr
    simp [controlPhase, hon, hoot, turnPhase, hl, hr]

/-- Claim C5, witness: a turn-left tick at the setup state. -/
theorem turn_effects_witness :
    (leftOnly.turn_left = true →
      (controlPhase 1 0 leftOnly setupState).body =
        { accelBrakePhase leftOnly setupState.body with
            angle := (accelBrakePhase leftOnly setupState.body).angle + CAR_TURN_SPEED,
            vel := rot 1 0 (accelBrakePhase leftOnly setupState.body).vel }) ∧
    (leftOnly.turn_left = false → leftOnly.turn_right = true →
      (controlPhase 1 0 leftOnly setupState).body =
        { accelBrakePhase leftOnly setupState.body with
            angle := (accelBrakePhase leftOnly setupState.body).angle - CAR_TURN_SPEED,
            vel := rot 1 (-0) (accelBrakePhase leftOnly setupState.body).vel }) ∧
    driftAngle = CAR_TURN_SPEED * (1 - CAR_DRIFT) :=
  turn_effects 1 0 leftOnly setupState (by decide) rfl

/-- Claim C6: every polygon point handed to the rasterizer is
transformed as y' = SCREEN_HEIGHT - y, for both the outer and the inner
polygon, and the flip is applied only on the rendering path: the
containment test evaluates the original un-flipped lists. -/
theorem flip_only_render (outer inner : List (ℚ × ℚ)) (s : ℚ × ℚ) (x y : ℚ) :
    (mkTrack outer inner s).raster_outer =
      outer.map (fun p => (p.1, SCREEN_HEIGHT - p.2)) ∧
    (mkTrack outer inner s).raster_inner =
      inner.map (fun p => (p.1, SCREEN_HEIGHT - p.2)) ∧
    (is_ontrack (mkTrack outer inner s) x y =
      (pointInPolygon x y outer && !(pointInPolygon x y inner))) :=
  ⟨rfl, rfl, rfl⟩

/-- Claim C7: from every state, the reset operation restores the
vehicle's position to the track's start point, zero velocity, default
orientation, no pending forces, and clears `out_of_track`. -/
theorem reset_restores (st : GameState) :
    (reset st).body.pos = (reset st).track.start ∧
    (reset st).body.vel = (0, 0) ∧
    (reset st).body.angle = 0 ∧
    (reset st).body.forces = [] ∧
    (reset st).out_of_track = false :=
  ⟨rfl, rfl, rfl, rfl, rfl⟩

/-- Claim C8: the start point of the single configured track satisfies
the containment test. -/
theorem start_on_track :
    is_ontrack track0 track0.start.1 track0.start.2 = true := by
  decide

/-- Claim C9: with both accelerate and brake pressed, only the
accelerate effect is applied; with both turn flags pressed, only the
turn-left effect is applied — regardless of the other input flags. -/
theorem per_tick_exclusion (c s : ℚ) (b : Body) (a sd tl tr : Bool) :
    accelBrakePhase
        { accelerate := true, slowdown := true, turn_left := tl, turn_right := tr } b =
      { b with forces := b.forces ++ [(0, ACCELERATE_FORCE)] } ∧
    turnPhase c s
        { accelerate := a, slowdown := sd, turn_left := true, turn_right := true } b =
      { b with angle := b.angle + CAR_TURN_SPEED, vel := rot c s b.vel } :=
  ⟨rfl, rfl⟩

/-- Claim C10: the turning branch never changes the vehicle's speed:
for rotation parameters on the unit circle, the squared norm of the
velocity after the turn's velocity write equals the squared norm before
it (for every input combination), and turning a stationary vehicle
leaves the velocity exactly zero. -/
theorem turn_preserves_speed (c s : ℚ) (inp : Inputs) (b : Body)
    (h : c ^ 2 + s ^ 2 = 1) :
    ((turnPhase c s inp b).vel.1 ^ 2 + (turnPhase c s inp b).vel.2 ^ 2 =
      b.vel.1 ^ 2 + b.vel.2 ^ 2) ∧
    (b.vel = (0, 0) → (turnPhase c s inp b).vel = (0, 0)) := by
  constructor
  · cases hl : inp.turn_left with
    | true => simpa [turnPhase, hl] using rot_sqnorm c s b.vel h
    | false =>
      cases hr : inp.turn_right with
      | true =>
        simpa [turnPhase, hl, hr] using
          rot_sqnorm c (-s) b.vel (by linear_combination h)
      | false => simp [turnPhase, hl, hr]
  · intro hv
    cases hl : inp.turn_left <;> cases hr : inp.turn_right <;>
      simp [turnPhase, hl, hr, rot, hv]

/-- Claim C10, witness: rotation parameters (3/5, 4/5) on a body moving
with velocity (30, 40) and turning left. -/
theorem turn_preserves_speed_witness :
    ((turnPhase (3/5) (4/5) leftOnly movingBody).vel.1 ^ 2 +
      (turnPhase (3/5) (4/5) leftOnly movingBody).vel.2 ^ 2 =
      movingBody.vel.1 ^ 2 + movingBody.vel.2 ^ 2) ∧
    (movingBody.vel = (0, 0) →
      (turnPhase (3/5) (4/5) leftOnly movingBody).vel = (0, 0)) :=
  turn_preserves_speed (3/5) (4/5) leftOnly movingBody (by norm_num)
